import Mathlib

/-!
Verification of davislib (src/davislib/models.py): data containers
(Term, Course) and the CAS-authenticated session / client abstractions
(Application, ProtectedApplication, ProtectedApplication.CAS).

The Python source is shallowly embedded: pure methods become Lean
functions, the HTTP transport becomes an explicit state-passing function
given as a parameter, Python exceptions become an explicit error type
and values of type Except, and Python dict update becomes an
insert-or-overwrite operation on association lists.
-/

/-- Python exceptions that the embedded code can raise. -/
inductive PyErr where
  | valueError
  | invalidLogin
  | attributeError (attrName : String)
  | keyError
deriving DecidableEq, Repr

/-- A Python value that is either an int or a str; used for fields such as
`Term.year` and `Course.crn` that callers may pass in either form. -/
inductive PyVal where
  | int (n : Int)
  | str (s : String)
deriving DecidableEq, Repr

/-- Embeds the Python builtin `str(-)` on the values of `PyVal`. -/
def PyVal.pyStr : PyVal → String
  | .int n => toString n
  | .str s => s

/-- Embeds the Python operator `==` between two `PyVal` values: equal ints or
equal strings compare equal; an int never equals a str. -/
def PyVal.pyEq : PyVal → PyVal → Bool
  | .int a, .int b => a == b
  | .str a, .str b => a == b
  | _, _ => false

/-- Embeds `Term.Session`, the enum of annual term sessions (models.py). -/
inductive Term.Session where
  | FALL_QUARTER
  | FALL_SEMESTER
  | SUMMER_SESSION_2
  | SUMMER_SPECIAL
  | SUMMER_SESSION_1
  | SPRING_QUARTER
  | SPRING_SEMESTER
  | WINTER_QUARTER
deriving DecidableEq, Repr

/-- The `value` of each `Term.Session` enum member (models.py lines 23-30). -/
def Term.Session.value : Term.Session → String
  | .FALL_QUARTER => "10"
  | .FALL_SEMESTER => "09"
  | .SUMMER_SESSION_2 => "07"
  | .SUMMER_SPECIAL => "06"
  | .SUMMER_SESSION_1 => "05"
  | .SPRING_QUARTER => "03"
  | .SPRING_SEMESTER => "02"
  | .WINTER_QUARTER => "01"

/-- Embeds the `Term` container: a year (int or str, as passed by the caller)
and a `Term.Session` member (the constructor normalises its argument through
`Session(-)`, so the stored session is always a member of the enum). -/
structure Term where
  year : PyVal
  session : Term.Session
deriving DecidableEq, Repr

/-- Embeds the property `Term.code` (models.py lines 53-58):
the format string concatenates `str(year)` with the session value. -/
def Term.code (t : Term) : String :=
  t.year.pyStr ++ t.session.value

/-- Embeds `Term.__eq__` (models.py lines 66-67):
`str(self.year) == str(other.year) and self.session == other.session`. -/
def Term.pyEq (t u : Term) : Bool :=
  (t.year.pyStr == u.year.pyStr) && (t.session == u.session)

/-- Embeds the `Course` container (models.py lines 69-170): a course
reference number, a `Term`, and the fourteen descriptive attributes set by
`__init__` from the `attrs` dict.  The descriptive attributes are carried as
opaque payloads (their exact Python types never influence any claim). -/
structure Course where
  crn : PyVal
  term : Term
  name : String
  number : String
  «section» : String
  title : String
  units : String
  instructor : String
  subject : String
  ge_credit : List String
  available_seats : PyVal
  max_enrollment : PyVal
  meetings : List (List (String × String))
  description : String
  final_exam : String
  drop_time : String
deriving DecidableEq, Repr

/-- Embeds `Course.__eq__` (models.py lines 169-170):
`self.crn == other.crn and self.term == other.term`. -/
def Course.pyEq (c d : Course) : Bool :=
  c.crn.pyEq d.crn && c.term.pyEq d.term

/-- A sample course used to exhibit that attributes other than `crn` and
`term` do not take part in equality. -/
def sampleCourseA : Course :=
  { crn := .int 74382
    term := { year := .int 2014, session := .FALL_QUARTER }
    name := "ECS 040"
    number := "040"
    «section» := "A01"
    title := "Intro to Programming"
    units := "2.5"
    instructor := "Sean Davis"
    subject := "Engineering Computer Science"
    ge_credit := ["Arts"]
    available_seats := .int 30
    max_enrollment := .int 99
    meetings := [[("days", "TR")]]
    description := "a"
    final_exam := "b"
    drop_time := "20 Day Drop" }

/-- A second sample course: the same `crn`, a `Term` equal in the sense of
`Term.pyEq` (int year versus str year), and every descriptive attribute
different from `sampleCourseA`. -/
def sampleCourseB : Course :=
  { crn := .int 74382
    term := { year := .str "2014", session := .FALL_QUARTER }
    name := "MAT 021A"
    number := "021A"
    «section» := "B02"
    title := "Calculus"
    units := "4.0"
    instructor := "Someone Else"
    subject := "Mathematics"
    ge_credit := ["Science"]
    available_seats := .int 5
    max_enrollment := .int 50
    meetings := [[("days", "MWF")]]
    description := "c"
    final_exam := "d"
    drop_time := "10 Day Drop" }

/-- Python dict assignment `d[k] = v` on a dict represented as an
association list in insertion order: overwrite the value in place when the
key is present, append a new pair otherwise. -/
def dictInsert : List (String × String) → String → String → List (String × String)
  | [], k, v => [(k, v)]
  | (k0, v0) :: tl, k, v =>
    if k0 == k then (k, v) :: tl else (k0, v0) :: dictInsert tl k v

/-- Embeds the Python operator `in` between two strings: substring test. -/
def pyIn (needle hay : String) : Bool :=
  decide (needle.toList <:+: hay.toList)

/-- The state held by one `requests.Session` object: its default headers
and its cookie jar, both as string maps. -/
structure SessionData where
  headers : List (String × String)
  cookies : List (String × String)
deriving DecidableEq, Repr

/-- The heap of live `requests.Session` objects.  A client instance stores
an index into this list; session sharing copies the index, not the data,
so a mutation through one holder is read through every holder. -/
structure World where
  sessions : List SessionData
deriving DecidableEq, Repr

/-- The fixed descriptive `Application.USER_AGENT` string (models.py
lines 183-184). -/
def USER_AGENT : String :=
  "Mozilla/5.0 (Macintosh; Intel Mac OS X 10_10_1) AppleWebKit/537.36 (KHTML, like Gecko) Chrome/40.0.2214.115 Safari/537.36"

/-- The session produced by `requests.Session()` followed by
`s.headers.update(...)` with the fixed user agent (models.py 201-202). -/
def freshSessionData : SessionData :=
  { headers := dictInsert [] "User-Agent" USER_AGENT, cookies := [] }

/-- The cookie jar of the session with index `sid`. -/
def World.cookies (w : World) (sid : Nat) : List (String × String) :=
  (w.sessions[sid]?.map SessionData.cookies).getD []

/-- The header map of the session with index `sid`. -/
def World.headers (w : World) (sid : Nat) : List (String × String) :=
  (w.sessions[sid]?.map SessionData.headers).getD []

/-- Adding a cookie to the session with index `sid`, in place. -/
def World.addCookie (w : World) (sid : Nat) (k v : String) : World :=
  match w.sessions[sid]? with
  | some sd => ⟨w.sessions.set sid { sd with cookies := dictInsert sd.cookies k v }⟩
  | Option.none => w

/-- The attributes stored on a `ProtectedApplication.CAS` instance by its
constructor (models.py lines 271-275): the aliased session reference and
the credentials. -/
structure CASObj where
  sid : Nat
  username : String
  password : String
deriving DecidableEq, Repr

/-- The attributes a `ProtectedApplication` instance carries after
`__init__` (models.py lines 227-249): the session reference `self.s`
(here `sid`) and, when one of the two constructor branches ran, the
`auth_service` attribute.  The constructor never stores `username` or
`password` on the instance itself; only the nested CAS object holds
them. -/
structure PApp where
  sid : Nat
  authService : Option CASObj
deriving DecidableEq, Repr

/-- Embeds the Python attribute lookup `shared_app.username` on a
`ProtectedApplication` instance: the attribute set of such an instance is
exactly the fields of `PApp`, so the lookup raises `AttributeError`. -/
def PApp.getUsername (_ : PApp) : Except PyErr String :=
  .error (.attributeError "username")

/-- Embeds the Python attribute lookup `shared_app.password` on a
`ProtectedApplication` instance; as with `PApp.getUsername`, the
attribute does not exist, so the lookup raises `AttributeError`. -/
def PApp.getPassword (_ : PApp) : Except PyErr String :=
  .error (.attributeError "password")

/-- The possible values of the `shared_app` constructor argument:
`None` (the default), an `Application` instance that is not a
`ProtectedApplication`, a `ProtectedApplication` instance, or any other
Python value, of which only the truthiness matters to the code. -/
inductive SharedApp where
  | none
  | app (sid : Nat)
  | papp (a : PApp)
  | other (truthy : Bool)
deriving DecidableEq, Repr

/-- Python truthiness of the `shared_app` argument (the test
`if shared_app:`): `None` is falsy, object instances are truthy, other
values carry their own truthiness. -/
def SharedApp.isTruthy : SharedApp → Bool
  | .none => false
  | .app _ => true
  | .papp _ => true
  | .other t => t

/-- Embeds `isinstance(shared_app, Application)`. -/
def SharedApp.isApplication : SharedApp → Bool
  | .app _ => true
  | .papp _ => true
  | _ => false

/-- Embeds `isinstance(shared_app, ProtectedApplication)`. -/
def SharedApp.isProtected : SharedApp → Bool
  | .papp _ => true
  | _ => false

/-- Embeds `Application.__init__` (models.py lines 186-202).  The returned
Nat is the new instance attribute `self.s`, a reference into the world of
live sessions; a fresh session is appended to the world when one is
created.  The source tests `if shared_app:` (truthiness) and then
`isinstance(shared_app, Application)`, raising `ValueError` otherwise. -/
def Application.init (w : World) (shared_app : SharedApp) :
    Except PyErr (Nat × World) :=
  if shared_app.isTruthy then
    match shared_app with
    | .app sid => .ok (sid, w)
    | .papp a => .ok (a.sid, w)
    | _ => .error .valueError
  else
    .ok (w.sessions.length, ⟨w.sessions ++ [freshSessionData]⟩)

/-- Python truthiness of an optional string argument such as `username`:
absent (`None`) and the empty string are falsy. -/
def credTruthy : Option String → Bool
  | some s => s != ""
  | Option.none => false

/-- Embeds `ProtectedApplication.__init__` (models.py lines 227-249):
first `Application.__init__` with the shared app, then, when the shared
app is itself a `ProtectedApplication`, construction of
`CAS(shared_app.username, shared_app.password, shared_app=self)` — whose
attribute lookups raise — and finally, when `username and password` is
truthy, construction of `CAS(username, password, shared_app=self)`
overwriting `self.auth_service`. -/
def ProtectedApp.init (w : World) (username password : Option String)
    (shared_app : SharedApp) : Except PyErr (PApp × World) :=
  match Application.init w shared_app with
  | .error e => .error e
  | .ok (sid, w1) =>
    let afterShared : Except PyErr (Option CASObj) :=
      match shared_app with
      | .papp a =>
        match a.getUsername with
        | .error e => .error e
        | .ok u =>
          match a.getPassword with
          | .error e => .error e
          | .ok p => .ok (some { sid := sid, username := u, password := p })
      | _ => .ok Option.none
    match afterShared with
    | .error e => .error e
    | .ok auth0 =>
      let auth1 : Option CASObj :=
        match username, password with
        | some u, some p =>
          if u != "" && p != "" then
            some { sid := sid, username := u, password := p }
          else auth0
        | _, _ => auth0
      .ok ({ sid := sid, authService := auth1 }, w1)

/-- An HTTP request as issued by `Application.request` (models.py lines
204-205): the verb, the joined URL `base + endpoint`, and the form data
passed along for a POST. -/
structure Request where
  method : String
  url : String
  data : List (String × String)
deriving DecidableEq, Repr

/-- Builds the request `self.s.request(method, ''.join([base, endpoint]),
**kwargs)` of `Application.request`. -/
def mkRequest (method base endpoint : String)
    (data : List (String × String)) : Request :=
  { method := method, url := base ++ endpoint, data := data }

/-- A non-text HTML element as seen by BeautifulSoup: its attribute set. -/
structure Element where
  attrs : List (String × String)
deriving DecidableEq, Repr

/-- A form element: its id attribute, its `action` attribute when present
(subscripting a missing attribute raises `KeyError`), and its non-text
descendants, which is what `find_all(text=False)` iterates. -/
structure Form where
  formId : String
  action : Option String
  children : List Element
deriving DecidableEq, Repr

/-- The BeautifulSoup view of an HTML body: its forms in document order. -/
structure Document where
  forms : List Form
deriving DecidableEq, Repr

/-- Embeds `soup.find("form", id=...)`: the first form with the given id,
or `None`. -/
def Document.findForm (d : Document) (i : String) : Option Form :=
  d.forms.find? (fun f => f.formId == i)

/-- An HTTP response: the final URL after redirects, the body text, and
the parse of that body (the view BeautifulSoup would produce from it). -/
structure Response where
  url : String
  text : String
  doc : Document
deriving DecidableEq, Repr

/-- Trace events recorded by the embedded request flows: HTTP requests
issued by `ProtectedApplication.request` itself (`appRequest`, always to
the original endpoint), HTTP requests issued inside `CAS.auth`
(`casRequest`), and invocations of `auth_service.auth()` (`login`). -/
inductive Event where
  | appRequest (r : Request)
  | casRequest (r : Request)
  | login
deriving DecidableEq, Repr

/-- `CAS.BASE` (models.py line 269). -/
def CAS.BASE : String := "https://cas.ucdavis.edu"

/-- `CAS.LOGIN_ENDPOINT` (models.py line 270). -/
def CAS.LOGIN_ENDPOINT : String := "/cas/login"

/-- The success marker substring searched for in response bodies by
`CAS.auth` (models.py lines 279 and 295). -/
def SUCCESS_MARKER : String := "<div id=\"msg\" class=\"success\""

/-- The GET request `self.get(self.LOGIN_ENDPOINT)` opening `CAS.auth`. -/
def casGetReq : Request :=
  { method := "get", url := CAS.BASE ++ CAS.LOGIN_ENDPOINT, data := [] }

/-- The hidden-field collection loop of `CAS.auth` (models.py lines
285-289): every non-text descendant of the login form carrying both a
`name` and a `value` attribute contributes `data[name] = value`, in
document order. -/
def collectFields (children : List Element) : List (String × String) :=
  children.foldl
    (fun data c =>
      match c.attrs.lookup "name", c.attrs.lookup "value" with
      | some n, some v => dictInsert data n v
      | _, _ => data)
    []

/-- Embeds `CAS.auth` (models.py lines 277-296) over an abstract transport
`send` mapping a transport state and a request to a response and a new
state.  Returns the Python outcome (normal return, or the raised
exception), the final transport state, and the trace of requests issued:
a GET of the login page; an immediate normal return when the body already
holds the success marker; otherwise form extraction, a POST of the hidden
fields plus credentials to the form action, and `InvalidLoginError` when
the POST response still lacks the marker. -/
def CAS.auth {σ : Type} (send : σ → Request → Response × σ)
    (username password : String) (s0 : σ) :
    Except PyErr Unit × σ × List Event :=
  let res := send s0 casGetReq
  let authPage := res.1
  let s1 := res.2
  if pyIn SUCCESS_MARKER authPage.text then
    (.ok (), s1, [.casRequest casGetReq])
  else
    match authPage.doc.findForm "fm1" with
    | Option.none => (.error (.attributeError "find_all"), s1, [.casRequest casGetReq])
    | some login_form =>
      let data0 := collectFields login_form.children
      let data1 := dictInsert data0 "username" username
      let data2 := dictInsert data1 "password" password
      match login_form.action with
      | Option.none => (.error .keyError, s1, [.casRequest casGetReq])
      | some act =>
        let postReq : Request := { method := "post", url := CAS.BASE ++ act, data := data2 }
        let res2 := send s1 postReq
        if pyIn SUCCESS_MARKER res2.1.text then
          (.ok (), res2.2, [.casRequest casGetReq, .casRequest postReq])
        else
          (.error .invalidLogin, res2.2, [.casRequest casGetReq, .casRequest postReq])

/-- Embeds `ProtectedApplication.request` (models.py lines 251-266) over
the same abstract transport: issue the request once; if the final URL does
not contain the authentication domain, return the response; otherwise look
up `self.auth_service` (raising `AttributeError` when neither constructor
branch set it), run `auth()`, and issue the original request exactly once
more, returning that second response with no further check. -/
def ProtectedApp.request {σ : Type} (send : σ → Request → Response × σ)
    (self : PApp) (method base endpoint : String)
    (data : List (String × String)) (s0 : σ) :
    Except PyErr Response × σ × List Event :=
  let req := mkRequest method base endpoint data
  let res := send s0 req
  let r := res.1
  let s1 := res.2
  if pyIn "cas.ucdavis" r.url = false then
    (.ok r, s1, [.appRequest req])
  else
    match self.authService with
    | Option.none => (.error (.attributeError "auth_service"), s1, [.appRequest req])
    | some cas =>
      let ares := CAS.auth send cas.username cas.password s1
      match ares.1 with
      | .error e => (.error e, ares.2.1, [Event.appRequest req, Event.login] ++ ares.2.2)
      | .ok _ =>
        let res2 := send ares.2.1 req
        (.ok res2.1, res2.2,
         [Event.appRequest req, Event.login] ++ ares.2.2 ++ [Event.appRequest req])

/-- Whether a trace event is a request issued by
`ProtectedApplication.request` itself. -/
def Event.isAppRequest : Event → Bool
  | .appRequest _ => true
  | _ => false

/-- Whether a trace event is a login transaction. -/
def Event.isLogin : Event → Bool
  | .login => true
  | _ => false

/-- Number of requests issued to the original endpoint. -/
def countAppRequests (tr : List Event) : Nat :=
  tr.countP Event.isAppRequest

/-- Number of login transactions. -/
def countLogins (tr : List Event) : Nat :=
  tr.countP Event.isLogin

theorem dictInsert_of_lookup_none (d : List (String × String)) (k v : String)
    (h : d.lookup k = Option.none) : dictInsert d k v = d ++ [(k, v)] := by
  induction d with
  | nil => rfl
  | cons hd tl ih =>
    obtain ⟨k0, v0⟩ := hd
    by_cases hk : k = k0
    · subst hk
      simp [List.lookup_cons] at h
    · have hbeq : (k == k0) = false := beq_false_of_ne hk
      have hbeq2 : (k0 == k) = false := beq_false_of_ne (Ne.symm hk)
      simp only [List.lookup_cons, hbeq] at h
      simp only [dictInsert, hbeq2, Bool.false_eq_true, if_false, List.cons_append,
        List.cons.injEq, true_and]
      exact ih h

theorem lookup_append_of_none (d e : List (String × String)) (k : String)
    (h : d.lookup k = Option.none) : (d ++ e).lookup k = e.lookup k := by
  induction d with
  | nil => rfl
  | cons hd tl ih =>
    obtain ⟨k0, v0⟩ := hd
    by_cases hk : k = k0
    · subst hk
      simp [List.lookup_cons] at h
    · have hbeq : (k == k0) = false := beq_false_of_ne hk
      simp only [List.lookup_cons, hbeq] at h
      simp only [List.cons_append, List.lookup_cons, hbeq]
      exact ih h

theorem casAuth_counts {σ : Type} (send : σ → Request → Response × σ)
    (u p : String) (s0 : σ) :
    countAppRequests (CAS.auth send u p s0).2.2 = 0
    ∧ countLogins (CAS.auth send u p s0).2.2 = 0 := by
  unfold CAS.auth
  dsimp only
  split
  · simp [countAppRequests, countLogins, Event.isAppRequest, Event.isLogin]
  · split
    · simp [countAppRequests, countLogins, Event.isAppRequest, Event.isLogin]
    · split
      · simp [countAppRequests, countLogins, Event.isAppRequest, Event.isLogin]
      · split <;>
          simp [countAppRequests, countLogins, Event.isAppRequest, Event.isLogin]

/-- C4: When the login page body already contains the success marker,
`auth()` returns normally right after the initial GET: its trace is the
single GET of the login endpoint (in particular no POST is issued), and
the final transport state is exactly the state after that GET, so nothing
beyond the GET touches the session. -/
theorem cas_auth_marker_noop {σ : Type} (send : σ → Request → Response × σ)
    (u p : String) (s0 : σ)
    (hmark : pyIn SUCCESS_MARKER ((send s0 casGetReq).1.text) = true) :
    CAS.auth send u p s0 = (.ok (), (send s0 casGetReq).2, [.casRequest casGetReq])
    ∧ casGetReq.method = "get" := by
  refine ⟨?_, rfl⟩
  unfold CAS.auth
  dsimp only
  rw [if_pos hmark]

/-- Transport used by the witnesses of the `CAS.auth` claims: a counter
state; the first request returns `wAuthedPage` (a body that is just the
success marker), later requests return a page with no marker. -/
def wMarkerSend : Nat → Request → Response × Nat :=
  fun n _ =>
    (if n == 0 then { url := CAS.BASE ++ CAS.LOGIN_ENDPOINT, text := SUCCESS_MARKER, doc := ⟨[]⟩ }
     else { url := CAS.BASE ++ CAS.LOGIN_ENDPOINT, text := "nope", doc := ⟨[]⟩ },
     n + 1)

theorem cas_auth_marker_noop_witness :
    pyIn SUCCESS_MARKER ((wMarkerSend 0 casGetReq).1.text) = true
    ∧ CAS.auth wMarkerSend "u" "p" 0 = (.ok (), 1, [.casRequest casGetReq]) :=
  ⟨by decide, (cas_auth_marker_noop wMarkerSend "u" "p" 0 (by decide)).1⟩

/-- C3: When the login page body lacks the success marker and parses to a
form with id fm1 whose name/value-bearing children are hidden fields with
pairwise distinct names avoiding `username` and `password`, and with an
action attribute, `auth()` issues exactly one POST, to the action endpoint
under the CAS base, whose data is the collected hidden pairs followed by
the `username` and `password` fields; it raises `InvalidLoginError`
exactly when the POST response body lacks the marker and returns normally
exactly when the marker is present. -/
theorem cas_auth_post_spec {σ : Type} (send : σ → Request → Response × σ)
    (u p : String) (s0 : σ) (login_form : Form) (act : String)
    (hs : List (String × String))
    (hmark : pyIn SUCCESS_MARKER ((send s0 casGetReq).1.text) = false)
    (hform : ((send s0 casGetReq).1.doc).findForm "fm1" = some login_form)
    (_hhidden : ∀ e ∈ login_form.children,
      (e.attrs.lookup "name").isSome → (e.attrs.lookup "value").isSome →
        e.attrs.lookup "type" = some "hidden")
    (hcollect : collectFields login_form.children = hs)
    (hu : hs.lookup "username" = Option.none)
    (hp : hs.lookup "password" = Option.none)
    (hact : login_form.action = some act) :
    (CAS.auth send u p s0).2.2 =
      [.casRequest casGetReq,
       .casRequest { method := "post", url := CAS.BASE ++ act,
                     data := hs ++ [("username", u), ("password", p)] }]
    ∧ (CAS.auth send u p s0).2.1 =
        (send ((send s0 casGetReq).2)
          { method := "post", url := CAS.BASE ++ act,
            data := hs ++ [("username", u), ("password", p)] }).2
    ∧ ((CAS.auth send u p s0).1 = .error .invalidLogin ↔
        pyIn SUCCESS_MARKER
          ((send ((send s0 casGetReq).2)
            { method := "post", url := CAS.BASE ++ act,
              data := hs ++ [("username", u), ("password", p)] }).1.text) = false)
    ∧ ((CAS.auth send u p s0).1 = .ok () ↔
        pyIn SUCCESS_MARKER
          ((send ((send s0 casGetReq).2)
            { method := "post", url := CAS.BASE ++ act,
              data := hs ++ [("username", u), ("password", p)] }).1.text) = true) := by
  have hdata : dictInsert (dictInsert (collectFields login_form.children) "username" u)
      "password" p = hs ++ [("username", u), ("password", p)] := by
    rw [hcollect, dictInsert_of_lookup_none hs "username" u hu]
    rw [dictInsert_of_lookup_none _ "password" p]
    · simp
    · rw [lookup_append_of_none hs _ "password" hp]
      rfl
  unfold CAS.auth
  dsimp only
  rw [if_neg (by simp [hmark]), hform]
  dsimp only
  rw [hact]
  dsimp only
  rw [hdata]
  constructor
  · split <;> rfl
  constructor
  · split <;> rfl
  constructor
  · constructor
    · intro h
      by_contra hcase
      rw [Bool.not_eq_false] at hcase
      rw [if_pos hcase] at h
      exact absurd h (by simp)
    · intro h
      rw [if_neg (by simp [h])]
  · constructor
    · intro h
      by_contra hcase
      rw [Bool.not_eq_true] at hcase
      rw [if_neg (by simp [hcase])] at h
      exact absurd h (by simp)
    · intro h
      rw [if_pos h]

/-- The login form used by the witness of the POST claim: two hidden
fields and the action of the spec scenario. -/
def wLoginForm : Form :=
  { formId := "fm1"
    action := some "/cas/login"
    children :=
      [⟨[("type", "hidden"), ("name", "lt"), ("value", "X")]⟩,
       ⟨[("type", "hidden"), ("name", "execution"), ("value", "Y")]⟩] }

/-- Transport used by the witness of the POST claim: the first request
returns the login page containing `wLoginForm` and no marker; any later
request returns a body that still lacks the marker. -/
def wFormSend : Nat → Request → Response × Nat :=
  fun n _ =>
    (if n == 0 then
       { url := CAS.BASE ++ CAS.LOGIN_ENDPOINT, text := "<html>", doc := ⟨[wLoginForm]⟩ }
     else { url := CAS.BASE ++ CAS.LOGIN_ENDPOINT, text := "denied", doc := ⟨[]⟩ },
     n + 1)

theorem cas_auth_post_spec_witness :
    pyIn SUCCESS_MARKER ((wFormSend 0 casGetReq).1.text) = false
    ∧ collectFields wLoginForm.children = [("lt", "X"), ("execution", "Y")]
    ∧ (CAS.auth wFormSend "alice" "pw" 0).2.2 =
        [.casRequest casGetReq,
         .casRequest { method := "post", url := CAS.BASE ++ "/cas/login",
                       data := [("lt", "X"), ("execution", "Y"),
                                ("username", "alice"), ("password", "pw")] }]
    ∧ (CAS.auth wFormSend "alice" "pw" 0).1 = .error .invalidLogin := by
  refine ⟨by decide, by decide, ?_, ?_⟩
  · exact (cas_auth_post_spec wFormSend "alice" "pw" 0 wLoginForm "/cas/login"
      [("lt", "X"), ("execution", "Y")] (by decide) (by decide) (by decide)
      (by decide) (by decide) (by decide) (by decide)).1
  · exact ((cas_auth_post_spec wFormSend "alice" "pw" 0 wLoginForm "/cas/login"
      [("lt", "X"), ("execution", "Y")] (by decide) (by decide) (by decide)
      (by decide) (by decide) (by decide) (by decide)).2.2.1).mpr (by decide)

theorem countAppRequests_append (a b : List Event) :
    countAppRequests (a ++ b) = countAppRequests a + countAppRequests b :=
  List.countP_append Event.isAppRequest a b

theorem countLogins_append (a b : List Event) :
    countLogins (a ++ b) = countLogins a + countLogins b :=
  List.countP_append Event.isLogin a b

/-- C1: For every request through a properly configured protected client:
when the final URL of the first response does not contain the
authentication domain, that response is returned as-is and no login
transaction happens; when it does contain it and `auth()` returns
normally, the client runs exactly one login transaction and issues the
original request exactly once more, returning the second response
unconditionally; and in every case, at most two requests to the original
endpoint and at most one login transaction occur. -/
theorem protected_request_spec {σ : Type} (send : σ → Request → Response × σ)
    (self : PApp) (cas : CASObj) (method base endpoint : String)
    (data : List (String × String)) (s0 : σ)
    (hauth : self.authService = some cas) :
    (pyIn "cas.ucdavis" ((send s0 (mkRequest method base endpoint data)).1.url) = false →
      ProtectedApp.request send self method base endpoint data s0 =
        (.ok (send s0 (mkRequest method base endpoint data)).1,
         (send s0 (mkRequest method base endpoint data)).2,
         [.appRequest (mkRequest method base endpoint data)]))
    ∧ (pyIn "cas.ucdavis" ((send s0 (mkRequest method base endpoint data)).1.url) = true →
      ∀ s2 tr,
        CAS.auth send cas.username cas.password
            ((send s0 (mkRequest method base endpoint data)).2) = (.ok (), s2, tr) →
        ProtectedApp.request send self method base endpoint data s0 =
          (.ok (send s2 (mkRequest method base endpoint data)).1,
           (send s2 (mkRequest method base endpoint data)).2,
           [.appRequest (mkRequest method base endpoint data), .login] ++ tr
             ++ [.appRequest (mkRequest method base endpoint data)]))
    ∧ countAppRequests (ProtectedApp.request send self method base endpoint data s0).2.2 ≤ 2
    ∧ countLogins (ProtectedApp.request send self method base endpoint data s0).2.2 ≤ 1 := by
  refine ⟨?_, ?_, ?_, ?_⟩
  · intro hurl
    unfold ProtectedApp.request
    dsimp only
    rw [if_pos hurl]
  · intro hurl s2 tr heq
    unfold ProtectedApp.request
    dsimp only
    rw [if_neg (by simp [hurl]), hauth]
    dsimp only
    rw [heq]
  · unfold ProtectedApp.request
    dsimp only
    split
    · simp [countAppRequests, List.countP, List.countP.go, Event.isAppRequest]
    · split
      · simp [countAppRequests, List.countP, List.countP.go, Event.isAppRequest]
      · split
        · rw [countAppRequests_append, (casAuth_counts send _ _ _).1]
          simp [countAppRequests, List.countP, List.countP.go,
            Event.isAppRequest, Event.isLogin]
        · rw [countAppRequests_append, countAppRequests_append,
            (casAuth_counts send _ _ _).1]
          simp [countAppRequests, List.countP, List.countP.go,
            Event.isAppRequest, Event.isLogin]
  · unfold ProtectedApp.request
    dsimp only
    split
    · simp [countLogins, List.countP, List.countP.go, Event.isLogin]
    · split
      · simp [countLogins, List.countP, List.countP.go, Event.isLogin]
      · split
        · rw [countLogins_append, (casAuth_counts send _ _ _).2]
          simp [countLogins, List.countP, List.countP.go,
            Event.isAppRequest, Event.isLogin]
        · rw [countLogins_append, countLogins_append,
            (casAuth_counts send _ _ _).2]
          simp [countLogins, List.countP, List.countP.go,
            Event.isAppRequest, Event.isLogin]

/-- Transport used by the witness of the retry claim: the first request is
redirected to the CAS login URL, the second (the GET inside `auth()`)
returns a body holding the success marker, so the login transaction
returns immediately, and the third (the retried original request) returns
the protected resource. -/
def wProtSend : Nat → Request → Response × Nat :=
  fun n _ =>
    (if n == 0 then
       { url := "https://cas.ucdavis.edu/cas/login?service=s", text := "", doc := ⟨[]⟩ }
     else if n == 1 then
       { url := CAS.BASE ++ CAS.LOGIN_ENDPOINT, text := SUCCESS_MARKER, doc := ⟨[]⟩ }
     else { url := "https://sisweb.ucdavis.edu/x", text := "ok", doc := ⟨[]⟩ },
     n + 1)

/-- The CAS object of the witness client. -/
def wCas : CASObj := { sid := 0, username := "alice", password := "pw" }

/-- The witness protected client: its `auth_service` attribute is set. -/
def wPApp : PApp := { sid := 0, authService := some wCas }

theorem protected_request_spec_witness :
    wPApp.authService = some wCas
    ∧ pyIn "cas.ucdavis"
        ((wProtSend 0 (mkRequest "get" "https://sisweb.ucdavis.edu" "/x" [])).1.url) = true
    ∧ ProtectedApp.request wProtSend wPApp "get" "https://sisweb.ucdavis.edu" "/x" [] 0 =
        (.ok { url := "https://sisweb.ucdavis.edu/x", text := "ok", doc := ⟨[]⟩ }, 3,
         [.appRequest (mkRequest "get" "https://sisweb.ucdavis.edu" "/x" []), .login,
          .casRequest casGetReq,
          .appRequest (mkRequest "get" "https://sisweb.ucdavis.edu" "/x" [])]) :=
  ⟨rfl, by decide,
    (protected_request_spec wProtSend wPApp wCas "get" "https://sisweb.ucdavis.edu" "/x" [] 0
      rfl).2.1 (by decide) 2 [.casRequest casGetReq] rfl⟩

/-- C7: A protected client constructed without both credentials being
truthy and with a shared app that is not itself a protected client ends up
with no `auth_service` attribute; a request through it whose first
response lands on the authentication domain then raises `AttributeError`
instead of re-authenticating. -/
theorem protected_no_creds_no_auth_service {σ : Type} (w w1 : World)
    (username password : Option String) (shared_app : SharedApp) (papp : PApp)
    (send : σ → Request → Response × σ) (method base endpoint : String)
    (data : List (String × String)) (s0 : σ)
    (hcred : (credTruthy username && credTruthy password) = false)
    (hshared : shared_app.isProtected = false)
    (hinit : ProtectedApp.init w username password shared_app = .ok (papp, w1))
    (hurl : pyIn "cas.ucdavis" ((send s0 (mkRequest method base endpoint data)).1.url) = true) :
    papp.authService = Option.none
    ∧ ProtectedApp.request send papp method base endpoint data s0 =
        (.error (.attributeError "auth_service"),
         (send s0 (mkRequest method base endpoint data)).2,
         [.appRequest (mkRequest method base endpoint data)]) := by
  have hsvc : papp.authService = Option.none := by
    unfold ProtectedApp.init at hinit
    cases happ : Application.init w shared_app with
    | error e =>
      rw [happ] at hinit
      exact absurd hinit (by simp)
    | ok sw =>
      obtain ⟨sid, w2⟩ := sw
      rw [happ] at hinit
      dsimp only at hinit
      cases shared_app with
      | papp a => simp [SharedApp.isProtected] at hshared
      | none | app _ | other _ =>
        dsimp only at hinit
        cases username with
        | none =>
          cases password with
          | none =>
            simp only [Except.ok.injEq, Prod.mk.injEq] at hinit
            rw [← hinit.1]
          | some p =>
            simp only [Except.ok.injEq, Prod.mk.injEq] at hinit
            rw [← hinit.1]
        | some u =>
          cases password with
          | none =>
            simp only [Except.ok.injEq, Prod.mk.injEq] at hinit
            rw [← hinit.1]
          | some p =>
            simp only [credTruthy] at hcred
            dsimp only at hinit
            rw [if_neg (by simp [hcred])] at hinit
            simp only [Except.ok.injEq, Prod.mk.injEq] at hinit
            rw [← hinit.1]
  refine ⟨hsvc, ?_⟩
  unfold ProtectedApp.request
  dsimp only
  rw [if_neg (by simp [hurl]), hsvc]

/-- Transport used by the C7 witness: every request lands on the CAS
login URL. -/
def wCasSend : Nat → Request → Response × Nat :=
  fun n _ =>
    ({ url := "https://cas.ucdavis.edu/cas/login?service=s", text := "", doc := ⟨[]⟩ }, n + 1)

theorem protected_no_creds_no_auth_service_witness :
    ProtectedApp.init ⟨[]⟩ Option.none Option.none SharedApp.none =
      .ok ({ sid := 0, authService := Option.none }, ⟨[freshSessionData]⟩)
    ∧ ProtectedApp.request wCasSend { sid := 0, authService := Option.none }
        "get" "https://sisweb.ucdavis.edu" "/x" [] 0 =
        (.error (.attributeError "auth_service"), 1,
         [.appRequest (mkRequest "get" "https://sisweb.ucdavis.edu" "/x" [])]) :=
  ⟨rfl,
    (protected_no_creds_no_auth_service ⟨[]⟩ ⟨[freshSessionData]⟩ Option.none Option.none
      SharedApp.none { sid := 0, authService := Option.none } wCasSend
      "get" "https://sisweb.ucdavis.edu" "/x" [] 0
      (by decide) (by decide) rfl (by decide)).2⟩

/-- C2 (code bug): the constructor docstring promises that a protected
shared app has its username and password copied into a new auth service,
but `ProtectedApplication` instances never store `username` or `password`
attributes (only the nested CAS object does), so
`ProtectedApplication(shared_app=p)` with `p` a protected client raises
`AttributeError` on `shared_app.username` — both without and with
explicit credentials, since the inheriting branch runs first. -/
theorem protected_init_shared_protected_attr_error :
    ProtectedApp.init ⟨[]⟩ (some "alice") (some "secret") SharedApp.none
      = .ok ({ sid := 0,
               authService := some { sid := 0, username := "alice", password := "secret" } },
             ⟨[freshSessionData]⟩)
    ∧ ProtectedApp.init ⟨[freshSessionData]⟩ Option.none Option.none
        (.papp { sid := 0,
                 authService := some { sid := 0, username := "alice", password := "secret" } })
      = .error (.attributeError "username")
    ∧ ProtectedApp.init ⟨[freshSessionData]⟩ (some "bob") (some "pw")
        (.papp { sid := 0,
                 authService := some { sid := 0, username := "alice", password := "secret" } })
      = .error (.attributeError "username") :=
  ⟨rfl, rfl, rfl⟩

/-- C5 counterexample: the value 0 — falsy, supplied, and not an
Application instance — is accepted by the constructor, which silently
creates a fresh session instead of raising `ValueError`. -/
theorem application_init_falsy_shared_accepted :
    (SharedApp.other false).isApplication = false
    ∧ Application.init ⟨[]⟩ (.other false) = .ok (0, ⟨[freshSessionData]⟩) := by
  exact ⟨rfl, rfl⟩

/-- C5 amended: a truthy `shared_app` that is not an Application instance
makes construction fail with `ValueError`, and the error return carries no
new session; a falsy non-instance value is treated like an absent
argument and produces a fresh session instead. -/
theorem application_init_shared_type_check (w : World) :
    Application.init w (.other true) = .error .valueError
    ∧ Application.init w (.other false)
        = .ok (w.sessions.length, ⟨w.sessions ++ [freshSessionData]⟩) := by
  exact ⟨rfl, rfl⟩

/-- C6: Constructing with a compatible `shared_app` stores the very same
session reference on the new client (for a plain Application and for a
protected one alike) and allocates nothing, so a cookie added through that
reference is read back through it by every sharing client; constructing
without `shared_app` appends a fresh session whose headers carry the fixed
descriptive User-Agent. -/
theorem application_session_aliasing (w w2 : World) (aSid : Nat) (a : PApp) (k v : String)
    (hlt : aSid < w2.sessions.length) :
    Application.init w (.app aSid) = .ok (aSid, w)
    ∧ Application.init w (.papp a) = .ok (a.sid, w)
    ∧ (w2.addCookie aSid k v).cookies aSid = dictInsert (w2.cookies aSid) k v
    ∧ Application.init w SharedApp.none
        = .ok (w.sessions.length, ⟨w.sessions ++ [freshSessionData]⟩)
    ∧ (⟨w.sessions ++ [freshSessionData]⟩ : World).headers w.sessions.length
        = [("User-Agent", USER_AGENT)] := by
  refine ⟨rfl, rfl, ?_, rfl, ?_⟩
  · have hget : w2.sessions[aSid]? = some w2.sessions[aSid] :=
      List.getElem?_eq_getElem hlt
    unfold World.addCookie World.cookies
    rw [hget]
    dsimp only
    rw [List.getElem?_set_eq_of_lt _ hlt]
    rfl
  · unfold World.headers
    dsimp only
    rw [List.getElem?_concat_length]
    rfl

theorem application_session_aliasing_witness :
    0 < (⟨[freshSessionData]⟩ : World).sessions.length
    ∧ ((⟨[freshSessionData]⟩ : World).addCookie 0 "CASTGC" "ticket").cookies 0
        = [("CASTGC", "ticket")]
    ∧ (⟨[] ++ [freshSessionData]⟩ : World).headers 0 = [("User-Agent", USER_AGENT)] :=
  ⟨by decide,
    (application_session_aliasing ⟨[]⟩ ⟨[freshSessionData]⟩ 0
      { sid := 0, authService := Option.none } "CASTGC" "ticket" (by decide)).2.2.1,
    (application_session_aliasing ⟨[]⟩ ⟨[freshSessionData]⟩ 0
      { sid := 0, authService := Option.none } "CASTGC" "ticket" (by decide)).2.2.2.2⟩

/-- C8: For all valid (year, session) pairs, `Term.code` equals the string
concatenation of the year and the two-digit session code; in particular
year 2014 with `FALL_QUARTER` yields "201410". -/
theorem term_code_concat :
    (∀ t : Term, t.code = t.year.pyStr ++ t.session.value)
    ∧ (∀ s : Term.Session, s.value.length = 2)
    ∧ Term.code { year := .int 2014, session := .FALL_QUARTER } = "201410" := by
  refine ⟨fun t => rfl, fun s => ?_, rfl⟩
  cases s <;> rfl

/-- C9: Two `Term` values compare equal under `Term.__eq__` iff their years
agree when rendered through `str(-)` and their sessions agree; in particular
a `Term` built with int year 2014 equals one built with str year "2014"
even though the two values are not identical. -/
theorem term_eq_spec :
    (∀ t u : Term,
      Term.pyEq t u = true ↔ (t.year.pyStr = u.year.pyStr ∧ t.session = u.session))
    ∧ Term.pyEq { year := .int 2014, session := .FALL_QUARTER }
        { year := .str "2014", session := .FALL_QUARTER } = true
    ∧ ({ year := .int 2014, session := .FALL_QUARTER } : Term)
        ≠ { year := .str "2014", session := .FALL_QUARTER } := by
  refine ⟨fun t u => ?_, by decide, by decide⟩
  simp [Term.pyEq]

/-- C10: Two `Course` values compare equal under `Course.__eq__` iff their
reference numbers are equal (Python `==`) and their Terms are equal
(`Term.__eq__`); the sample pair agrees on crn and term while differing in
every descriptive attribute, yet compares equal. -/
theorem course_eq_spec :
    (∀ c d : Course,
      Course.pyEq c d = true ↔ (c.crn.pyEq d.crn = true ∧ c.term.pyEq d.term = true))
    ∧ Course.pyEq sampleCourseA sampleCourseB = true
    ∧ sampleCourseA.name ≠ sampleCourseB.name
    ∧ sampleCourseA.number ≠ sampleCourseB.number
    ∧ sampleCourseA.«section» ≠ sampleCourseB.«section»
    ∧ sampleCourseA.title ≠ sampleCourseB.title
    ∧ sampleCourseA.units ≠ sampleCourseB.units
    ∧ sampleCourseA.instructor ≠ sampleCourseB.instructor
    ∧ sampleCourseA.subject ≠ sampleCourseB.subject
    ∧ sampleCourseA.ge_credit ≠ sampleCourseB.ge_credit
    ∧ sampleCourseA.available_seats ≠ sampleCourseB.available_seats
    ∧ sampleCourseA.max_enrollment ≠ sampleCourseB.max_enrollment
    ∧ sampleCourseA.meetings ≠ sampleCourseB.meetings
    ∧ sampleCourseA.description ≠ sampleCourseB.description
    ∧ sampleCourseA.final_exam ≠ sampleCourseB.final_exam
    ∧ sampleCourseA.drop_time ≠ sampleCourseB.drop_time := by
  refine ⟨fun c d => ?_, ?_, ?_, ?_, ?_, ?_, ?_, ?_, ?_, ?_, ?_, ?_, ?_, ?_, ?_, ?_⟩
  · simp [Course.pyEq]
  all_goals decide
